import Mathlib

/-!
Verification development for the hivpn repository (Go).

The source under verification is `src/vpn/vpn.go` (package `vpn`: the VPN engine,
authentication, forwarding pumps, route setup) and `src/connection/connection.go`
(package `connection`: the tunnel channel wrapper, plus `main`).

Shallow embedding conventions:
* Go byte slices are `List Nat` (each element a byte value).
* Go maps used as lookup tables are either association lists
  (`List (String × _)`, first binding wins; the claims never involve duplicate
  keys) or lookup functions `String → Option _`.
* Fallible Go calls return `Option`/`Except`.
* External collaborators whose source is **in this repository but not under
  `src/`** (`hivpn/network`, `hivpn/crypto`, base64 from the standard library,
  the WebSocket layer) are either modelled from the spec (marked
  "Modelled from the spec:") or taken as explicit function parameters of the
  embedded code, so that each theorem quantifies over their behaviour; the
  control flow around them is translated from the source verbatim.
-/

namespace HiVPN

/-! Constants from `src/vpn/vpn.go` lines 54-60 and `src/connection/connection.go`
lines 13-16. -/

def MAX_TRY : Nat := 10

def CONNECTION_TYPE_WEBSOCKET : Nat := 1

def ERROR_AUTHENTICATION_FAILED : String := "Authentication failed"

/-- Message logged by `Create` (src/vpn/vpn.go:139) when the retry loop exhausts. -/
def FAILED_MSG : String := "Failed to connect to server"

/-! Embedding of `src/connection/connection.go`: the `TUN` tunnel-channel
struct.  Only the state the claims are about is carried: the `TryNumber`
reconnect counter, and two flags recording which callbacks `Connect` has
registered (`srcConn.OnFuncWriteTunToDev`/`OnAuthen` at lines 27-28, and
assignment of the `FuncWriteDevToTun` field at lines 29-32). -/

structure TUN where
  tryNumber : Nat
  readCallbacksRegistered : Bool
  writeFuncInstalled : Bool
deriving Repr, DecidableEq

/-- Embeds `TUN.Connect` (src/connection/connection.go:18-38).  The result of
`self.createWebSocket(self.Addr, token)` is external (WebSocket layer, not under
`src/`) and is passed in as `createWebSocketResult`.  For the websocket
connection type the counter is incremented first (line 21); a dial error
returns early (lines 23-25); otherwise the read-path callbacks are registered
and the write function installed (lines 27-34).  Unknown connection types fall
through the empty `default` and return nil (line 35-37). -/
def TUN.connect (s : TUN) (connectType : Nat) (createWebSocketResult : Except String Unit) :
    TUN × Except String Unit :=
  if connectType == CONNECTION_TYPE_WEBSOCKET then
    let s1 : TUN := { s with tryNumber := s.tryNumber + 1 }
    match createWebSocketResult with
    | Except.error e => (s1, Except.error e)
    | Except.ok _ =>
        ({ s1 with readCallbacksRegistered := true, writeFuncInstalled := true },
         Except.ok ())
  else
    (s, Except.ok ())

/-- Embeds the closure assigned to `self.FuncWriteDevToTun`
(src/connection/connection.go:29-32): it sets `self.TryNumber = 0` and then
returns the result of `srcConn.WriteDevToTun(conn, data)`.  The underlying
transport write is external and is passed in as `underlyingWrite`; note the
counter is zeroed unconditionally, before the underlying write's outcome is
known. -/
def TUN.funcWriteDevToTun (s : TUN) (underlyingWrite : Except String Unit) :
    TUN × Except String Unit :=
  ({ s with tryNumber := 0 }, underlyingWrite)

/-! Embedding of `main` (the `package main` file appended in
`src/connection/connection.go`).  `main` calls `os.Exit(1)` on a config-load
error (line 75) and, in client mode, on a `ValidServer` error (line 91).  In
every other flow it calls `vpn.Create`, logs the returned error if any
(line 116), and then returns from `main`, which makes the Go process exit with
code 0.  `MainFlow` enumerates those flows. -/

inductive MainFlow where
  | configLoadError : MainFlow
  | validServerError : MainFlow
  | createCalled : Option String → MainFlow
deriving Repr, DecidableEq

/-- Process exit code of `main` for each flow: `os.Exit(1)` for the two startup
failures; plain return (exit code 0) once `vpn.Create` has returned, whether or
not it reported an error. -/
def mainExitCode : MainFlow → Nat
  | MainFlow.configLoadError => 1
  | MainFlow.validServerError => 1
  | MainFlow.createCalled _ => 0

/-- Embeds `handlerCtrC` (src/vpn/vpn.go:154-162): on SIGINT/SIGTERM the
handler calls `vpn.stop()` and then `os.Exit(1)`. -/
def handlerCtrCExitCode : Nat := 1

/-! Embedding of the `vpn` package data model (src/vpn/vpn.go). -/

/-- The `User` struct (src/vpn/vpn.go:34-38). -/
structure User where
  name : String
  pass : String
  ip : String
deriving Repr, DecidableEq

/-- A record of the ARP peer table: connection handle (opaque, modelled as a
`Nat` identifier) and session key.  The spec's last-updated timestamp is real
time and is not modelled; no claim depends on it. -/
structure ARPRecord where
  conn : Nat
  key : List Nat
deriving Repr, DecidableEq

/-- The peer table, virtual IP → record (spec §3 `PeerTable`). -/
abbrev ARPTable := List (String × ARPRecord)

/-- Modelled from the spec: `network.ARP.Update` (package `hivpn/network`, whose
source is not under `src/`).  Spec §3: `Update(ip, conn, key)` "installs a new
record only if none currently exists for `ip`; otherwise it signals 'conflict'";
§4.C: insert-if-absent.  The returned `Bool` is the conflict signal
(`true` = a record for `ip` already existed and nothing was inserted): the only
caller, `authenConn` (src/vpn/vpn.go:259), negates the returned value to take
the success path, and spec §4.D step 7 states that acceptance (the insert
succeeded) is the success case, so the value the real function returns on a
successful insert must be `false`.  (§4.C's one-word gloss of the boolean as
"accepted" is irreconcilable with §4.D step 7 composed with the caller's `!`;
this model follows §4.D step 7, the sentence that describes the cited lines.) -/
def ARP.update (t : ARPTable) (ip : String) (conn : Nat) (key : List Nat) :
    Bool × ARPTable :=
  match t.lookup ip with
  | some _ => (true, t)
  | none => (false, (ip, { conn := conn, key := key }) :: t)

/-- Modelled from the spec: `network.ARP.Delete` (spec §3, §4.C): remove the
record for `ip`; idempotent.  `authenConn` returns this as the on-close hook. -/
def ARP.delete (t : ARPTable) (ip : String) : ARPTable :=
  t.filter (fun p => !(p.1 == ip))

/-- Embeds Go's `strings.Split(s, sep)` for the single-character separators the
source uses (`":"` in `authenConn`, `"/"` in `network.GetIp`): splits around
every occurrence of `sep`, yielding one more piece than there are occurrences;
the empty input yields one empty piece, exactly as in Go. -/
def splitOnChar (sep : Char) : List Char → List (List Char)
  | [] => [[]]
  | c :: rest =>
    let r := splitOnChar sep rest
    if c == sep then [] :: r
    else (c :: r.headD []) :: r.tail

/-- The per-byte acceptance test of the session-key sanity filter, translated
from the loop body of `authenConn` (src/vpn/vpn.go:253-257): the byte `c` is
rejected when `c < 48 || (58 < c && c < 64) || (91 < c && c < 96) || c > 123`,
accepted otherwise. -/
def validKeyByte (c : Nat) : Bool :=
  !(decide (c < 48) || (decide (58 < c) && decide (c < 64)) ||
    (decide (91 < c) && decide (c < 96)) || decide (123 < c))

/-- Embeds `authenConn` (src/vpn/vpn.go:231-263).

Parameters standing for collaborators outside `src/`:
* `userTable` — the `self.userTable` map produced by `setupAuthentication`,
  as a lookup function;
* `base64Decode` — `base64.StdEncoding.DecodeString` (standard library),
  `none` on decode error;
* `aesDecrypt` — `crypto.AESDecrypt` (package `hivpn/crypto`), keyed by the
  user's stored password string, `none` on decrypt error.

The Go function returns the triple `(ip, key, deleteHook)` on success and the
empty triple `("", nil, nil)` on failure; this is modelled as
`some (ip, key)` / `none` (the returned hook is always `self.arpTable.Delete`,
embedded as `ARP.delete`).  Because `ARP.Update` mutates the table, the
embedding also returns the table after the call. -/
def authenConn (userTable : String → Option User)
    (base64Decode : String → Option (List Nat))
    (aesDecrypt : String → List Nat → Option (List Nat))
    (arpTable : ARPTable) (token : String) (conn : Nat) :
    Option (String × List Nat) × ARPTable :=
  let arr := splitOnChar ':' token.data
  if arr.length < 2 then (none, arpTable)
  else
    match userTable (String.mk (arr.getD 0 [])) with
    | none => (none, arpTable)
    | some u =>
      match base64Decode (String.mk (arr.getD 1 [])) with
      | none => (none, arpTable)
      | some tokenByte =>
        match aesDecrypt u.pass tokenByte with
        | none => (none, arpTable)
        | some keyByte =>
          if keyByte.all validKeyByte then
            let r := ARP.update arpTable u.ip conn keyByte
            if !r.1 then (some (u.ip, keyByte), r.2) else (none, r.2)
          else (none, arpTable)

/-! Embedding of `setupAuthentication` (src/vpn/vpn.go:265-280). -/

/-- The `KEY_LEN` local constant of `setupAuthentication` (src/vpn/vpn.go:266). -/
def KEY_LEN : Nat := 32

/-- Modelled from the spec: `network.GetIp` (package `hivpn/network`, not under
`src/`).  Spec §3 `VirtualAddress`: the CIDR suffix is stripped before use as a
table key (e.g. `"10.0.0.2/24" ↦ "10.0.0.2"`). -/
def getIp (s : String) : String :=
  String.mk ((splitOnChar '/' s.data).headD [])

/-- The password transformation of `setupAuthentication`
(src/vpn/vpn.go:270-273), translated verbatim: `pass` starts as the empty
string and is overwritten with the padded password only when
`len(u.Pass) < KEY_LEN`; there is no branch for passwords of length ≥ 32, so
those store the initial empty string. -/
def padPassword (p : String) : String :=
  if p.length < KEY_LEN then p ++ String.mk (List.replicate (KEY_LEN - p.length) 't')
  else ""

/-- Embeds `setupAuthentication` (src/vpn/vpn.go:265-280): builds
`vpn.userTable` from the configured users, storing for each the transformed
password and the canonicalized IP (the `Name` field of the stored struct is
left at its zero value, as in the source).  The Go map is modelled as an
association list; the claims never configure duplicate user names. -/
def setupAuthentication (users : List User) : List (String × User) :=
  users.map (fun u => (u.name, { name := "", pass := padPassword u.pass, ip := getIp u.ip }))

/-! Embedding of the blacklist plumbing: `Create` initializes `vpn.blackList`
empty (src/vpn/vpn.go:69); `setupRoute` (src/vpn/vpn.go:282-346) adds entries;
`handler` (src/vpn/vpn.go:206-229) consults it per packet. -/

/-- The key set of `vpn.blackList` after `setupRoute` returns, together with
`setupRoute`'s structural error, translated from src/vpn/vpn.go:282-346:
the `linux` branch never touches `vpn.blackList`; the
`windows && !IsServer` branch executes `vpn.blackList[ipB] = true` for every
configured entry (line 332, while building the command list, hence before any
command runs); any other platform/role combination returns the
"not support os" error.  Host-command execution (`runCmd`) is an external
collaborator and is modelled as succeeding; the map contents do not depend on
it in either branch. -/
def setupRouteBlackList (yourOS : String) (isServer : Bool) (blacklist : List String) :
    Except String (List String) :=
  if yourOS == "linux" then Except.ok []
  else if yourOS == "windows" && !isServer then Except.ok blacklist
  else Except.error ("not support os: " ++ yourOS)

/-- The per-packet blacklist test of `handler` (src/vpn/vpn.go:217):
`vpn.blackList[header.IPDst.String()]` — a Go map read defaulting to `false` —
drops the packet when the parsed destination is a key of the map. -/
def handlerDrops (blackList : List String) (dstIp : String) : Bool :=
  blackList.contains dstIp

/-! Embedding of the tunnel→device pump `writeTunToDev`
(src/vpn/vpn.go:184-204). -/

/-- Outcome of one `writeTunToDev` invocation.  `nilCallback` is the Go
behaviour of calling a nil function field (`vpn.writeDevToTun` before
`OnFuncWriteDevToTun` has run): a runtime panic.  `relayed` records the call
into the installed `writeDevToTun` closure with the parsed destination, the
decrypted packet and the closure's result (the source only logs that result);
`wroteDevice` records the `vpn.dev.Write(rawData, 0)` path. -/
inductive TunToDevOutcome where
  | dropDecryptError : TunToDevOutcome
  | nilCallback : TunToDevOutcome
  | relayed : String → List Nat → Option String → TunToDevOutcome
  | wroteDevice : List Nat → TunToDevOutcome
deriving Repr, DecidableEq

/-- Embeds `writeTunToDev` (src/vpn/vpn.go:184-204).

Collaborators outside `src/` are parameters: `aesDecrypt` is
`crypto.AESDecrypt` (keyed by the session key bytes), `parseDst` is the
destination address produced by `network.ParseHeaderPacket` (as a string, the
form in which the engine consumes it), and `inMyNetwork` is the predicate
installed by `Create`.  `writeDevToTunCb` is the `vpn.writeDevToTun` function
field, `none` while no callback has been installed.  Control flow from the
source: decrypt (drop on error), parse, relay into `vpn.writeDevToTun` when
`inMyNetwork(dst)` holds (return without touching the device), otherwise write
the plaintext to the virtual device. -/
def writeTunToDev (aesDecrypt : List Nat → List Nat → Option (List Nat))
    (parseDst : List Nat → String) (inMyNetwork : String → Bool)
    (writeDevToTunCb : Option (String → List Nat → Option String))
    (key data : List Nat) : TunToDevOutcome :=
  match aesDecrypt key data with
  | none => TunToDevOutcome.dropDecryptError
  | some rawData =>
    if inMyNetwork (parseDst rawData) then
      match writeDevToTunCb with
      | none => TunToDevOutcome.nilCallback
      | some f => TunToDevOutcome.relayed (parseDst rawData) rawData (f (parseDst rawData) rawData)
    else
      TunToDevOutcome.wroteDevice rawData

/-- The `vpn.inMyNetwork` predicate installed by `Create` in client mode
(src/vpn/vpn.go:108-110): constantly `false`. -/
def clientInMyNetwork : String → Bool := fun _ => false

/-- Phases of `Create` (src/vpn/vpn.go:66-152) relevant to the
`vpn.writeDevToTun` function field: before `virtualChannel.Connect` returns
(line 118), after `Connect` but before `vpn.OnFuncWriteDevToTun` runs
(line 129), and after it has run. -/
inductive CreatePhase where
  | beforeConnect : CreatePhase
  | afterConnect : CreatePhase
  | afterInstall : CreatePhase
deriving Repr, DecidableEq

/-- Value of the `vpn.writeDevToTun` function field at each phase of `Create`:
nothing assigns the field before line 129 (`vpn.OnFuncWriteDevToTun`), so it
holds Go's nil function value up to and including the return of
`virtualChannel.Connect`; afterwards it holds the closure built by
`OnFuncWriteDevToTun` (src/vpn/vpn.go:164-182), passed here as `installed`. -/
def createWriteDevToTunCb (installed : String → List Nat → Option String) :
    CreatePhase → Option (String → List Nat → Option String)
  | CreatePhase.beforeConnect => none
  | CreatePhase.afterConnect => none
  | CreatePhase.afterInstall => some installed

/-! Embedding of the reconnect-supervisor loop of `Create`
(src/vpn/vpn.go:137-149) in the exhaustion scenario. -/

/-- The retry loop of `Create` (src/vpn/vpn.go:137-149) in the scenario where
no data write ever succeeds (server unreachable), so no concurrent reset of
`TryNumber` occurs: each iteration first tests `TryNumber > MAX_TRY` and breaks
with the failure message, otherwise runs `Run()`, sleeps, and calls
`Connect`, which increments `TryNumber` by one (src/connection/connection.go:21)
whether or not the dial succeeds.  The function returns the message the loop
logs when it breaks. -/
def supervisorLoop (t : Nat) : String :=
  if MAX_TRY < t then FAILED_MSG
  else supervisorLoop (t + 1)
termination_by MAX_TRY + 1 - t
decreasing_by omega

/-! Concrete fixtures used by witnesses and counterexamples: a one-user
configuration and constant-valued stand-ins for the external decoder/cipher
collaborators (each stand-in returns a fixed successful result, which the real
collaborator can produce). -/

/-- Fixture: the stored credential of user `"u"` (already past
`setupAuthentication`: padded password, canonical IP). -/
def fixUser : User :=
  { name := "", pass := "pw" ++ String.mk (List.replicate 30 't'), ip := "10.0.0.2" }

/-- Fixture: a `vpn.userTable` holding exactly `fixUser` under name `"u"`. -/
def fixUserTable : String → Option User :=
  fun s => if s == "u" then some fixUser else none

/-- Fixture: a base64 decoder that succeeds with ciphertext `[7]`. -/
def fixB64 : String → Option (List Nat) :=
  fun _ => some [7]

/-- Fixture: an AES decryptor (password-keyed, as in `authenConn`) that
succeeds with plaintext `out`. -/
def fixDec (out : List Nat) : String → List Nat → Option (List Nat) :=
  fun _ _ => some out

/-- Fixture: an AES decryptor (session-key-keyed, as in `writeTunToDev`) that
succeeds with plaintext `out`. -/
def fixTunDec (out : List Nat) : List Nat → List Nat → Option (List Nat) :=
  fun _ _ => some out

/-- Fixture: a header parser reporting destination `10.0.0.3`. -/
def fixParse : List Nat → String := fun _ => "10.0.0.3"

/-- Fixture: a server-side `inMyNetwork` predicate that holds for the parsed
destination. -/
def fixInet : String → Bool := fun _ => true

/-- Fixture: an installed `writeDevToTun` closure that reports no error. -/
def fixRelayCb : String → List Nat → Option String := fun _ _ => none

/-! Helper lemmas shared by the claim theorems. -/

/-- When `ARP.update` signals a conflict it leaves the table untouched. -/
theorem ARP.update_conflict (t : ARPTable) (ip : String) (c : Nat) (k : List Nat)
    (h : (ARP.update t ip c k).1 = true) : (ARP.update t ip c k).2 = t := by
  unfold ARP.update at h ⊢
  cases hl : t.lookup ip <;> simp [hl] at h ⊢

/-- Reduction of `authenConn` for a token that passes the first five steps
(split, user lookup, base64 decode, AES decrypt, charset filter): the result is
decided by the `ARP.update` conflict signal. -/
theorem authenConn_pipeline (ut : String → Option User)
    (b64 : String → Option (List Nat)) (dec : String → List Nat → Option (List Nat))
    (arp : ARPTable) (token : String) (conn : Nat) (u : User) (ct kb : List Nat)
    (hlen : 2 ≤ (splitOnChar ':' token.data).length)
    (huser : ut (String.mk ((splitOnChar ':' token.data).getD 0 [])) = some u)
    (hb64 : b64 (String.mk ((splitOnChar ':' token.data).getD 1 [])) = some ct)
    (hdec : dec u.pass ct = some kb)
    (hfilter : kb.all validKeyByte = true) :
    authenConn ut b64 dec arp token conn =
      if (ARP.update arp u.ip conn kb).1 then (none, (ARP.update arp u.ip conn kb).2)
      else (some (u.ip, kb), (ARP.update arp u.ip conn kb).2) := by
  have h2 : ¬ ((splitOnChar ':' token.data).length < 2) := Nat.not_lt.mpr hlen
  unfold authenConn
  simp only [h2, if_false, huser, hb64, hdec, hfilter, if_true]
  cases hr : (ARP.update arp u.ip conn kb).1 <;> simp [hr]

/-- In the exhaustion scenario the supervisor loop always terminates by
emitting the failure message. -/
theorem supervisorLoop_eq (t : Nat) : supervisorLoop t = FAILED_MSG := by
  rw [supervisorLoop]
  split
  · rfl
  · exact supervisorLoop_eq (t + 1)
termination_by MAX_TRY + 1 - t
decreasing_by omega

/-! Claim theorems. -/

/-- C1: for every token that passes steps 1-6 of authentication (split, user
lookup, base64 decode, AES decrypt, charset filter), `authenConn` returns the
non-empty triple `(user.ip, session_key, delete-closure)` exactly when
`PeerTable.Update(user.ip, conn, session_key)` reports accepted — the
insert-if-absent succeeded, i.e. the conflict signal it returns is `false` —
and returns the empty triple exactly when it reports a conflict. -/
theorem c1_authen_success_iff_update_accepts (ut : String → Option User)
    (b64 : String → Option (List Nat)) (dec : String → List Nat → Option (List Nat))
    (arp : ARPTable) (token : String) (conn : Nat) (u : User) (ct kb : List Nat)
    (hlen : 2 ≤ (splitOnChar ':' token.data).length)
    (huser : ut (String.mk ((splitOnChar ':' token.data).getD 0 [])) = some u)
    (hb64 : b64 (String.mk ((splitOnChar ':' token.data).getD 1 [])) = some ct)
    (hdec : dec u.pass ct = some kb)
    (hfilter : kb.all validKeyByte = true) :
    ((authenConn ut b64 dec arp token conn).1.isSome = true
        ↔ (ARP.update arp u.ip conn kb).1 = false)
    ∧ ((ARP.update arp u.ip conn kb).1 = false
        → (authenConn ut b64 dec arp token conn).1 = some (u.ip, kb)) := by
  rw [authenConn_pipeline ut b64 dec arp token conn u ct kb hlen huser hb64 hdec hfilter]
  cases hr : (ARP.update arp u.ip conn kb).1 <;> simp [hr]

/-- C1 witness: the guarantee evaluated on the one-user fixture with an empty
peer table (the insert is accepted and the triple is returned). -/
theorem c1_witness :
    ((authenConn fixUserTable fixB64 (fixDec [48, 49]) [] "u:X" 1).1.isSome = true
        ↔ (ARP.update [] fixUser.ip 1 [48, 49]).1 = false)
    ∧ ((ARP.update [] fixUser.ip 1 [48, 49]).1 = false
        → (authenConn fixUserTable fixB64 (fixDec [48, 49]) [] "u:X" 1).1 = some (fixUser.ip, [48, 49])) :=
  c1_authen_success_iff_update_accepts fixUserTable fixB64 (fixDec [48, 49]) [] "u:X" 1
    fixUser [7] [48, 49] (by decide) (by decide) (by decide) (by decide) (by decide)

/-- C2 counterexample: the claim says a decrypted plaintext containing byte
0x3A, 0x40, 0x5B, 0x60 or 0x7B is rejected, but the filter translated from
src/vpn/vpn.go:253-257 accepts all five bytes (its comparisons are strict), and
a full `authenConn` run whose plaintext consists of exactly those five bytes
succeeds. -/
theorem c2_counterexample :
    validKeyByte 58 = true ∧ validKeyByte 64 = true ∧ validKeyByte 91 = true
    ∧ validKeyByte 96 = true ∧ validKeyByte 123 = true
    ∧ (authenConn fixUserTable fixB64 (fixDec [58, 64, 91, 96, 123]) [] "u:X" 1).1
        = some ("10.0.0.2", [58, 64, 91, 96, 123]) := by
  decide

/-- C2 amended: the filter accepts a byte `b` exactly when
`b ∈ [48..58] ∪ [64..91] ∪ [96..123]` — the boundary bytes 0x3A, 0x40, 0x5B,
0x60 and 0x7B are accepted, while the interior gap bytes ([59..63], [92..95],
above 123 and below 48, in particular 0x20) are rejected. -/
theorem c2_amended_filter_set :
    (∀ c : Nat, validKeyByte c = true
        ↔ ((48 ≤ c ∧ c ≤ 58) ∨ (64 ≤ c ∧ c ≤ 91) ∨ (96 ≤ c ∧ c ≤ 123)))
    ∧ validKeyByte 32 = false := by
  refine ⟨fun c => ?_, by decide⟩
  simp only [validKeyByte, Bool.not_eq_true', Bool.or_eq_false_iff, Bool.and_eq_false_iff,
    decide_eq_false_iff_not, Nat.not_lt]
  omega

/-- C3 (code-bug evaluation): `setupAuthentication` stores the *empty string*
as the key-encryption key of any user whose password is 32 bytes or longer —
the branch at src/vpn/vpn.go:271-273 pads only shorter passwords and nothing
overwrites the `pass := ""` initializer otherwise — while a shorter password is
padded with `'t'` to 32 bytes as the spec describes. -/
theorem c3_long_password_stored_empty :
    (String.mk (List.replicate 32 'a')).length = 32
    ∧ padPassword (String.mk (List.replicate 32 'a')) = ""
    ∧ (setupAuthentication
        [{ name := "u", pass := String.mk (List.replicate 32 'a'), ip := "10.0.0.2/24" }]).lookup "u"
        = some { name := "", pass := "", ip := "10.0.0.2" }
    ∧ padPassword "pw" = "pw" ++ String.mk (List.replicate 30 't') := by
  decide

/-- C4 counterexample: the claim says a write attempt whose underlying
transport write fails does not reset the counter, but the closure translated
from src/connection/connection.go:29-32 zeroes `TryNumber` before the
underlying write, so a failing write still resets a counter of 5 to 0. -/
theorem c4_counterexample :
    (TUN.funcWriteDevToTun
        { tryNumber := 5, readCallbacksRegistered := true, writeFuncInstalled := true }
        (Except.error "write failed")).1.tryNumber = 0
    ∧ ¬ ((TUN.funcWriteDevToTun
        { tryNumber := 5, readCallbacksRegistered := true, writeFuncInstalled := true }
        (Except.error "write failed")).1.tryNumber = 5) := by
  decide

/-- C4 amended: `TryNumber` is incremented on each websocket connect attempt
(before the dial, so failed dials count too), and is reset to 0 on every data
write *attempt* through `FuncWriteDevToTun`, regardless of whether the
underlying transport write succeeds. -/
theorem c4_amended_counter :
    (∀ (s : TUN) (r : Except String Unit),
        (TUN.connect s CONNECTION_TYPE_WEBSOCKET r).1.tryNumber = s.tryNumber + 1)
    ∧ (∀ (s : TUN) (w : Except String Unit),
        (TUN.funcWriteDevToTun s w).1.tryNumber = 0) := by
  constructor
  · intro s r
    cases r <;> simp [TUN.connect]
  · intro s w
    rfl

/-- C5 counterexample: the claim says exhausting the reconnect attempts makes
the process exit with code 1, but after the `Create` loop breaks (emitting the
failure message) `main` merely logs and returns, so the process exit code is 0. -/
theorem c5_counterexample :
    supervisorLoop 0 = "Failed to connect to server"
    ∧ mainExitCode (MainFlow.createCalled (some "Failed to connect to server")) = 0
    ∧ ¬ (mainExitCode (MainFlow.createCalled (some "Failed to connect to server")) = 1) :=
  ⟨supervisorLoop_eq 0, rfl, by decide⟩

/-- C5 amended: the supervisor loop of `Create` breaks exactly when `TryNumber`
exceeds `MAX_TRY` (10), emitting "Failed to connect to server", and every start
of the loop eventually reaches that break when no write resets the counter;
`main` then returns normally, so the process exits with code 0 (not 1).  Exit
code 1 is produced by the two startup failures (config load, server
validation) and by the SIGINT/SIGTERM handler — so a clean interrupt shutdown
also exits 1, not 0. -/
theorem c5_amended_exit_codes :
    (∀ t : Nat, supervisorLoop t = if MAX_TRY < t then FAILED_MSG else supervisorLoop (t + 1))
    ∧ (∀ t : Nat, supervisorLoop t = FAILED_MSG)
    ∧ FAILED_MSG = "Failed to connect to server"
    ∧ (∀ e : Option String, mainExitCode (MainFlow.createCalled e) = 0)
    ∧ mainExitCode MainFlow.configLoadError = 1
    ∧ mainExitCode MainFlow.validServerError = 1
    ∧ handlerCtrCExitCode = 1 := by
  refine ⟨fun t => ?_, supervisorLoop_eq, rfl, fun e => rfl, rfl, rfl, rfl⟩
  rw [supervisorLoop_eq t, supervisorLoop_eq (t + 1), ite_self]

/-- C6 counterexample: the claim says the per-packet blacklist drop takes
effect for configured entries regardless of platform, but on Linux `setupRoute`
never populates `vpn.blackList`, so a packet destined to a configured entry
(`8.8.8.8`) is not dropped by the pump. -/
theorem c6_counterexample :
    setupRouteBlackList "linux" false ["8.8.8.8"] = Except.ok []
    ∧ handlerDrops [] "8.8.8.8" = false :=
  ⟨rfl, rfl⟩

/-- C6 amended: the device→tunnel pump drops exactly the packets whose parsed
destination is a key of `vpn.blackList`; `setupRoute` copies the configured
Blacklist entries into that map only in its Windows non-server branch, leaves
the map empty on Linux (for either role), and fails on any other
platform/role combination — so the per-packet drop takes effect only on a
Windows client. -/
theorem c6_amended_blacklist_platform :
    (∀ (isServer : Bool) (bl : List String),
        setupRouteBlackList "linux" isServer bl = Except.ok [])
    ∧ (∀ bl : List String, setupRouteBlackList "windows" false bl = Except.ok bl)
    ∧ (∀ bl : List String,
        setupRouteBlackList "windows" true bl = Except.error ("not support os: windows"))
    ∧ (∀ (bl : List String) (dst : String), handlerDrops bl dst = bl.contains dst) :=
  ⟨fun _ _ => rfl, fun _ => rfl, fun _ => rfl, fun _ _ => rfl⟩

/-- C7: in the tunnel→device pump, a decrypted packet whose destination
satisfies `in_my_network` is re-entered into the installed `writeDevToTun`
closure (the relay path) and is never written to the local virtual device;
with the client's constantly-false predicate every decrypted inbound packet is
written to the virtual device instead. -/
theorem c7_relay_decision (dec : List Nat → List Nat → Option (List Nat))
    (parse : List Nat → String) (inet : String → Bool)
    (f : String → List Nat → Option String) (key data raw : List Nat)
    (hdec : dec key data = some raw) :
    (inet (parse raw) = true →
        writeTunToDev dec parse inet (some f) key data
          = TunToDevOutcome.relayed (parse raw) raw (f (parse raw) raw))
    ∧ writeTunToDev dec parse clientInMyNetwork (some f) key data
        = TunToDevOutcome.wroteDevice raw := by
  constructor
  · intro hin
    simp [writeTunToDev, hdec, hin]
  · simp [writeTunToDev, hdec, clientInMyNetwork]

/-- C7 witness: the relay/device decision evaluated on concrete fixtures — a
packet parsing to `10.0.0.3` is relayed when the predicate holds and written to
the device under the client predicate. -/
theorem c7_witness :
    writeTunToDev (fixTunDec [1, 2]) fixParse fixInet (some fixRelayCb) [0] [9]
      = TunToDevOutcome.relayed "10.0.0.3" [1, 2] none
    ∧ writeTunToDev (fixTunDec [1, 2]) fixParse clientInMyNetwork (some fixRelayCb) [0] [9]
      = TunToDevOutcome.wroteDevice [1, 2] :=
  ⟨(c7_relay_decision (fixTunDec [1, 2]) fixParse fixInet fixRelayCb [0] [9] [1, 2] rfl).1 rfl,
   (c7_relay_decision (fixTunDec [1, 2]) fixParse fixInet fixRelayCb [0] [9] [1, 2] rfl).2⟩

/-- C8: a token that fails any of the six authentication steps yields the empty
triple and leaves the peer table exactly as it was — no record inserted or
removed. -/
theorem c8_reject_leaves_table (ut : String → Option User)
    (b64 : String → Option (List Nat)) (dec : String → List Nat → Option (List Nat))
    (arp : ARPTable) (token : String) (conn : Nat)
    (h : (authenConn ut b64 dec arp token conn).1 = none) :
    (authenConn ut b64 dec arp token conn).2 = arp := by
  revert h
  unfold authenConn
  dsimp only
  split
  · exact fun _ => rfl
  · split
    · exact fun _ => rfl
    · split
      · exact fun _ => rfl
      · split
        · exact fun _ => rfl
        · split
          · split
            · intro h
              simp at h
            · rename_i hnot
              intro _
              apply ARP.update_conflict
              simpa using hnot
          · exact fun _ => rfl

/-- C8 witness: a token with no colon-separated second part is rejected and the
(empty) peer table is returned unchanged. -/
theorem c8_witness :
    (authenConn fixUserTable fixB64 (fixDec [48]) [] "nocolon" 1).1 = none
    ∧ (authenConn fixUserTable fixB64 (fixDec [48]) [] "nocolon" 1).2 = [] :=
  ⟨by decide,
   c8_reject_leaves_table fixUserTable fixB64 (fixDec [48]) [] "nocolon" 1 (by decide)⟩

/-- C9 counterexample: the claim says `authenConn` rejects any token whose
decrypted plaintext has a length other than 32, but a run whose plaintext is
the 5-byte string of digits `00000` succeeds and returns that 5-byte value as
the session key — there is no length check in src/vpn/vpn.go:231-263. -/
theorem c9_counterexample :
    (authenConn fixUserTable fixB64 (fixDec [48, 48, 48, 48, 48]) [] "u:X" 1).1
      = some ("10.0.0.2", [48, 48, 48, 48, 48])
    ∧ ¬ (([48, 48, 48, 48, 48] : List Nat).length = 32) := by
  decide

/-- C9 amended: `authenConn` applies no length check to the decrypted
plaintext: whenever the first five steps pass and the peer-table insert is
accepted, the session key returned is exactly the decrypted plaintext,
whatever its length (conforming clients happen to send 32-byte keys). -/
theorem c9_amended_no_length_check (ut : String → Option User)
    (b64 : String → Option (List Nat)) (dec : String → List Nat → Option (List Nat))
    (arp : ARPTable) (token : String) (conn : Nat) (u : User) (ct kb : List Nat)
    (hlen : 2 ≤ (splitOnChar ':' token.data).length)
    (huser : ut (String.mk ((splitOnChar ':' token.data).getD 0 [])) = some u)
    (hb64 : b64 (String.mk ((splitOnChar ':' token.data).getD 1 [])) = some ct)
    (hdec : dec u.pass ct = some kb)
    (hfilter : kb.all validKeyByte = true)
    (hfresh : (ARP.update arp u.ip conn kb).1 = false) :
    (authenConn ut b64 dec arp token conn).1 = some (u.ip, kb) := by
  rw [authenConn_pipeline ut b64 dec arp token conn u ct kb hlen huser hb64 hdec hfilter]
  simp [hfresh]

/-- C9 witness: the amended guarantee evaluated with a 5-byte plaintext: the
5-byte key is accepted and returned. -/
theorem c9_witness :
    (authenConn fixUserTable fixB64 (fixDec [48, 48, 48, 48, 48]) [] "u:X" 1).1
      = some (fixUser.ip, [48, 48, 48, 48, 48]) :=
  c9_amended_no_length_check fixUserTable fixB64 (fixDec [48, 48, 48, 48, 48]) [] "u:X" 1
    fixUser [7] [48, 48, 48, 48, 48] (by decide) (by decide) (by decide) (by decide)
    (by decide) (by decide)

/-- C10: `writeTunToDev` is total only once `OnFuncWriteDevToTun` has installed
the `writeDevToTun` callback: invoked with a frame that decrypts and parses to
an `in_my_network` destination while the field is still unset — the state of
`Create` after `Connect` returns (which is when the tunnel read path has been
registered) and before the installation at line 129 — it calls a nil function;
after installation the same frame is relayed through the installed closure. -/
theorem c10_nil_callback_window (dec : List Nat → List Nat → Option (List Nat))
    (parse : List Nat → String) (inet : String → Bool)
    (installed : String → List Nat → Option String) (key data raw : List Nat)
    (hdec : dec key data = some raw) (hin : inet (parse raw) = true) :
    writeTunToDev dec parse inet (createWriteDevToTunCb installed CreatePhase.afterConnect) key data
      = TunToDevOutcome.nilCallback
    ∧ (∀ s : TUN,
        (TUN.connect s CONNECTION_TYPE_WEBSOCKET (Except.ok ())).1.readCallbacksRegistered = true)
    ∧ writeTunToDev dec parse inet (createWriteDevToTunCb installed CreatePhase.afterInstall) key data
      = TunToDevOutcome.relayed (parse raw) raw (installed (parse raw) raw) := by
  refine ⟨?_, fun s => rfl, ?_⟩
  · simp [writeTunToDev, hdec, hin, createWriteDevToTunCb]
  · simp [writeTunToDev, hdec, hin, createWriteDevToTunCb]

/-- C10 witness: the nil-callback window evaluated on concrete fixtures: in the
after-Connect phase the qualifying frame hits the nil function; the read path
is registered by `Connect`. -/
theorem c10_witness :
    writeTunToDev (fixTunDec [1, 2]) fixParse fixInet
      (createWriteDevToTunCb fixRelayCb CreatePhase.afterConnect) [0] [9]
      = TunToDevOutcome.nilCallback
    ∧ (TUN.connect { tryNumber := 0, readCallbacksRegistered := false, writeFuncInstalled := false }
        CONNECTION_TYPE_WEBSOCKET (Except.ok ())).1.readCallbacksRegistered = true :=
  ⟨(c10_nil_callback_window (fixTunDec [1, 2]) fixParse fixInet fixRelayCb [0] [9] [1, 2]
      rfl rfl).1,
   (c10_nil_callback_window (fixTunDec [1, 2]) fixParse fixInet fixRelayCb [0] [9] [1, 2]
      rfl rfl).2.1
      { tryNumber := 0, readCallbacksRegistered := false, writeFuncInstalled := false }⟩

end HiVPN
